import Mathlib

/-!
Verification of the dkregistry-rs OCI/Docker Registry v2 client library.

The development shallowly embeds the library's data model and operations:

* `src/mediatypes.rs` — the closed `MediaTypes` enumeration with its
  `from_mime` / `to_mime` conversions (the MIME values themselves are
  modelled after the accessors of the `mime` crate v0.3, see `Mime`);
* `src/v2/blobs.rs` — buffered and streaming blob retrieval with digest
  verification (the `ContentDigest` type lives in `src/digest.rs`, which is
  not part of the sources at hand; it is modelled from the spec);
* `src/v2/auth.rs` — the authentication state machine: probe, challenge
  dispatch, bearer-token acquisition, token-endpoint URL synthesis;
* `src/v2/manifest/` — the polymorphic manifest model and its unified
  query surface (`manifest_schema1.rs` is not part of the sources at hand;
  the schema-1 manifest is modelled from the spec).

Network effects are made explicit: each operation takes the relevant HTTP
response data (status, headers, body, chunk list) as arguments and returns
an `Except`/outcome value, mirroring the `Result` values of the code.
-/

namespace DkRegistry

/-- Essence of a parsed MIME value, modelling the accessors of the `mime`
crate (v0.3) used by `MediaTypes::from_mime`: `type_()` is the part before
the slash; `subtype()` spans from after the slash to the end of the
essence and therefore INCLUDES any `+suffix` (in that crate the subtype of
`image/svg+xml` is `svg+xml`, cf. its documented constant `mime::SVG`);
`suffix()` is the part after the last `+`, when one is present.
Parameters (after `;`) do not occur in the canonical strings and are not
modelled. -/
structure Mime where
  type_ : String
  subtype : String
  suffix : Option String
deriving DecidableEq

/-- Split a character list at every occurrence of a separator; the
separators are dropped and the (possibly empty) fragments kept, so the
result on `n` separators has `n + 1` fragments. -/
def splitChar (sep : Char) : List Char → List (List Char)
  | [] => [[]]
  | c :: rest =>
    let r := splitChar sep rest
    if c = sep then [] :: r
    else
      match r with
      | h :: t => (c :: h) :: t
      | [] => [[c]]

instance {ε α : Type} [DecidableEq ε] [DecidableEq α] : DecidableEq (Except ε α)
  | .error e, .error f =>
    if h : e = f then .isTrue (by rw [h]) else .isFalse (by simp [h])
  | .error _, .ok _ => .isFalse (by simp)
  | .ok _, .error _ => .isFalse (by simp)
  | .ok a, .ok b =>
    if h : a = b then .isTrue (by rw [h]) else .isFalse (by simp [h])

/-- Parse a MIME string into its essence, following the `mime` crate's
splitting: one slash separates type and subtype; the subtype keeps any
`+suffix`; the suffix, if any, starts after the last `+`. -/
def mimeParse (s : String) : Option Mime :=
  match (splitChar '/' s.data).map String.mk with
  | [ty, sub] =>
    if ty = "" ∨ sub = "" then none
    else
      let suff : Option String :=
        match (splitChar '+' sub.data).map String.mk with
        | [_] => none
        | ps => ps.getLast?
      some { type_ := ty, subtype := sub, suffix := suff }
  | _ => none

/-- Mirror of `ManifestError` in `src/v2/manifest/mod.rs`. -/
inductive ManifestError where
  | NoArchitecture
  | ArchitectureMismatch
  | LayerDigestsUnsupported (which : String)
  | ArchitectureNotSupported (which : String)
deriving DecidableEq

/-- Error kind of the library (`errors.rs` is not part of the sources at
hand; the kinds are the ones named by the spec's error taxonomy, with the
payloads the in-source code attaches to them). `DigestParse` stands for
the digest-string parse failure, which the spec leaves unnamed. -/
inductive Error where
  | UnknownMimeType (m : Mime)
  | MediaTypeSniff
  | InvalidChallenge
  | MissingAuthHeader (h : String)
  | NoCredentials
  | InvalidAuthToken (token : String)
  | UnexpectedHttpStatus (status : Nat)
  | Client (status : Nat)
  | Server (status : Nat)
  | DigestParse (digest : String)
  | DigestMismatch (declared computed : String)
  | Manifest (e : ManifestError)
deriving DecidableEq

/-- Mirror of the `MediaTypes` enum in `src/mediatypes.rs`. -/
inductive MediaTypes where
  | OciV1ManifestList
  | OciV1Manifest
  | OciV1ManifestConfig
  | ManifestV2S1
  | ManifestV2S1Signed
  | ManifestV2S2
  | ManifestList
  | ImageLayerTgz
  | ContainerConfigV1
  | ApplicationJson
deriving DecidableEq

/-- The strum `Sub` property of each variant in `src/mediatypes.rs`. -/
def mediaTypeSub : MediaTypes → String
  | .OciV1ManifestList => "vnd.oci.image.index.v1+json"
  | .OciV1Manifest => "vnd.oci.image.manifest.v1+json"
  | .OciV1ManifestConfig => "vnd.oci.image.config.v1+json"
  | .ManifestV2S1 => "vnd.docker.distribution.manifest.v1+json"
  | .ManifestV2S1Signed => "vnd.docker.distribution.manifest.v1+prettyjws"
  | .ManifestV2S2 => "vnd.docker.distribution.manifest.v2+json"
  | .ManifestList => "vnd.docker.distribution.manifest.list.v2+json"
  | .ImageLayerTgz => "vnd.docker.image.rootfs.diff.tar.gzip"
  | .ContainerConfigV1 => "vnd.docker.container.image.v1+json"
  | .ApplicationJson => "json"

/-- The canonical MIME string of each variant (the strum `serialize`
string, which is `"application/" ++ Sub` for every variant). -/
def mediaTypeCanonical (m : MediaTypes) : String :=
  "application/" ++ mediaTypeSub m

/-- Mirror of `MediaTypes::to_mime`: `ApplicationJson` maps to the
`mime::APPLICATION_JSON` constant, every other variant parses
`"application/" ++ Sub`. The Rust fallbacks (`"application/star"` for a
missing `Sub` property, and the final `.expect`) are unreachable for the
ten variants; the `getD` default mirrors the former. -/
def toMime : MediaTypes → Mime
  | .ApplicationJson => { type_ := "application", subtype := "json", suffix := none }
  | m =>
    (mimeParse ("application/" ++ mediaTypeSub m)).getD
      { type_ := "application", subtype := "star", suffix := none }

/-- Mirror of `MediaTypes::from_mime` in `src/mediatypes.rs`: the match on
`(type_, subtype, suffix)`, arms in source order. -/
def fromMime (m : Mime) : Except Error MediaTypes :=
  if m.type_ = "application" ∧ m.subtype = "json" then .ok .ApplicationJson
  else
    match m.suffix with
    | some suff =>
      if ¬ m.type_ = "application" then .error (.UnknownMimeType m)
      else if m.subtype = "vnd.docker.distribution.manifest.v1" ∧ suff = "json" then
        .ok .ManifestV2S1
      else if m.subtype = "vnd.docker.distribution.manifest.v1" ∧ suff = "prettyjws" then
        .ok .ManifestV2S1Signed
      else if m.subtype = "vnd.docker.distribution.manifest.v2" ∧ suff = "json" then
        .ok .ManifestV2S2
      else if m.subtype = "vnd.docker.distribution.manifest.list.v2" ∧ suff = "json" then
        .ok .ManifestList
      else if m.subtype = "vnd.docker.image.rootfs.diff.tar.gzip" then
        .ok .ImageLayerTgz
      else if m.subtype = "vnd.docker.container.image.v1" ∧ suff = "json" then
        .ok .ContainerConfigV1
      else .error (.UnknownMimeType m)
    | none => .error (.UnknownMimeType m)

/-- Digest algorithm of a `ContentDigest`; the spec admits `sha256` and
`sha512`. -/
inductive Algo where
  | sha256
  | sha512
deriving DecidableEq

/-- Hex-digest length of each algorithm's output (32 resp. 64 bytes). -/
def Algo.hexLen : Algo → Nat
  | .sha256 => 64
  | .sha512 => 128

/-- A hash-function family, one finalised digest (as a byte list) per
algorithm.  The actual SHA-2 implementations live in an external crate,
outside this library; the verification pipeline is proved for an arbitrary
family and witnesses instantiate it concretely. -/
def Hash : Type := Algo → List Nat → List Nat

/-- The lowercase hex digit for a nibble: 0-9 map to the digit
characters, 10-15 to the letters a-f. -/
def hexChar (n : Nat) : Char :=
  if n < 10 then Char.ofNat (48 + n) else Char.ofNat (87 + n)

/-- Lowercase hex rendering of a byte list, two digits per byte. -/
def hexEncode (bytes : List Nat) : String :=
  ⟨bytes.foldr (fun b acc => hexChar (b / 16 % 16) :: hexChar (b % 16) :: acc) []⟩

def lowerChar (c : Char) : Char :=
  if 'A' ≤ c ∧ c ≤ 'Z' then Char.ofNat (c.toNat + 32) else c

/-- ASCII lowercasing, for the case-insensitive hex compare. -/
def lowerStr (s : String) : String :=
  ⟨s.data.map lowerChar⟩

/-- Modelled from the spec: `ContentDigest` of `src/digest.rs` (not among
the sources at hand) is `(algorithm, expected_hex, running_hash)`; the
running hash state is represented by the bytes fed so far. -/
structure ContentDigest where
  algo : Algo
  expectedHex : String
  data : List Nat
deriving DecidableEq

/-- Modelled from the spec: `ContentDigest::try_new` parses an
`algo:hex` string, requiring a known algorithm and the hex length that
matches the algorithm's output size.  The spec leaves the parse-failure
error kind unnamed; `DigestParse` stands for it. -/
def ContentDigest.try_new (digest : String) : Except Error ContentDigest :=
  match (splitChar ':' digest.data).map String.mk with
  | [a, hex] =>
    match a with
    | "sha256" =>
      if hex.length = Algo.hexLen .sha256 then .ok ⟨.sha256, hex, []⟩
      else .error (.DigestParse digest)
    | "sha512" =>
      if hex.length = Algo.hexLen .sha512 then .ok ⟨.sha512, hex, []⟩
      else .error (.DigestParse digest)
    | _ => .error (.DigestParse digest)
  | _ => .error (.DigestParse digest)

/-- Modelled from the spec: `update(chunk)` feeds bytes into the running
hash. -/
def ContentDigest.update (cd : ContentDigest) (chunk : List Nat) : ContentDigest :=
  { cd with data := cd.data ++ chunk }

/-- The finalised digest of the bytes fed so far, under hash family `H`. -/
def ContentDigest.computedHex (H : Hash) (cd : ContentDigest) : String :=
  hexEncode (H cd.algo cd.data)

/-- Modelled from the spec: `verify()` succeeds iff the finalised digest
equals `expected_hex` (case-insensitive hex compare), else fails with
`DigestMismatch { declared, computed }`. -/
def ContentDigest.verify (H : Hash) (cd : ContentDigest) : Except Error Unit :=
  if cd.computedHex H = lowerStr cd.expectedHex then .ok ()
  else .error (.DigestMismatch cd.expectedHex (cd.computedHex H))

/-- Models `reqwest`'s `StatusCode::is_client_error`. -/
def isClientError (status : Nat) : Bool :=
  decide (400 ≤ status ∧ status ≤ 499)

/-- Models `reqwest`'s `StatusCode::is_server_error`. -/
def isServerError (status : Nat) : Bool :=
  decide (500 ≤ status ∧ status ≤ 599)

/-- Models `reqwest::Response::error_for_status_ref`, which fails exactly
for client-error (4xx) and server-error (5xx) statuses and succeeds for
every other status. -/
def errorForStatus (status : Nat) : Bool :=
  isClientError status || isServerError status

/-- Mirror of `Client::get_blob_response` in `src/v2/blobs.rs`, reduced to
the data it dispatches on: the response status and the declared digest
string.  On the success path it builds the `BlobResponse`'s
`ContentDigest`; the URL building and the request itself carry no further
logic. -/
def get_blob_response (status : Nat) (digest : String) : Except Error ContentDigest :=
  if errorForStatus status then
    if isClientError status then .error (.Client status)
    else if isServerError status then .error (.Server status)
    else .error (.UnexpectedHttpStatus status)
  else ContentDigest.try_new digest

/-- Mirror of `BlobResponse::bytes` in `src/v2/blobs.rs`: materialise the
body, feed it through the digest, verify, and only then hand the bytes
out. -/
def blob_bytes (H : Hash) (cd : ContentDigest) (body : List Nat) :
    Except Error (List Nat) :=
  let d := cd.update body
  match d.verify H with
  | .ok _ => .ok body
  | .error e => .error e

/-- Mirror of `Client::get_blob` in `src/v2/blobs.rs`:
`get_blob_response(...)?.bytes()`. -/
def get_blob (H : Hash) (status : Nat) (body : List Nat) (digest : String) :
    Except Error (List Nat) :=
  match get_blob_response status digest with
  | .error e => .error e
  | .ok cd => blob_bytes H cd body

/-- Mirror of the `BlobStream` adapter state in `src/v2/blobs.rs`: the
not-yet-polled chunks of the underlying response stream, and the digest
slot (`Option` because the terminal verification `take`s it). -/
structure BlobStream where
  chunks : List (List Nat)
  digest : Option ContentDigest
deriving DecidableEq

/-- Mirror of `BlobStream::new`. -/
def BlobStream.new (chunks : List (List Nat)) (cd : ContentDigest) : BlobStream :=
  ⟨chunks, some cd⟩

/-- Mirror of `BlobStream::poll_next` in `src/v2/blobs.rs`: one poll of
the adapter.  `(some x, s)` is `Poll::Ready(Some(x))` with successor state
`s`; `(none, s)` is `Poll::Ready(None)`.  `Poll::Pending` merely
propagates without touching the state and is not modelled.  Underlying
transport chunk errors (the `chunk_res?` line) are orthogonal to the
digest pipeline and not modelled either: the underlying stream is its
list of successful chunks. -/
def BlobStream.poll_next (H : Hash) (s : BlobStream) :
    Option (Except Error (List Nat)) × BlobStream :=
  match s.chunks with
  | chunk :: rest =>
    match s.digest with
    | none => (none, ⟨rest, none⟩)
    | some d => (some (.ok chunk), ⟨rest, some (d.update chunk)⟩)
  | [] =>
    match s.digest with
    | some d =>
      match d.verify H with
      | .ok _ => (none, ⟨[], none⟩)
      | .error e => (some (.error e), ⟨[], none⟩)
    | none => (none, s)

/-- Poll the stream `n` times (or until it reports end-of-stream),
collecting the yielded items and the state reached — the observable
behaviour of a consumer that polls at most `n` times. -/
def BlobStream.poll_trace (H : Hash) :
    Nat → BlobStream → List (Except Error (List Nat)) × BlobStream
  | 0, s => ([], s)
  | n + 1, s =>
    match s.poll_next H with
    | (some x, s') =>
      let r := BlobStream.poll_trace H n s'
      (x :: r.1, r.2)
    | (none, s') => ([], s')

/-- Mirror of `Client::get_blob_stream` in `src/v2/blobs.rs`:
`get_blob_response(...)?.stream()`, wrapping the response's chunk stream
into the verifying adapter. -/
def get_blob_stream (status : Nat) (digest : String) (chunks : List (List Nat)) :
    Except Error BlobStream :=
  match get_blob_response status digest with
  | .error e => .error e
  | .ok cd => .ok (BlobStream.new chunks cd)

/-- Mirror of `BearerAuth` in `src/v2/auth.rs` (the token-service JSON
body). -/
structure BearerAuth where
  token : String
  expires_in : Option Nat
  issued_at : Option String
  refresh_token : Option String
deriving DecidableEq

/-- Mirror of `Auth` in `src/v2/auth.rs`; `Basic` carries the fields of
`BasicAuth`. -/
inductive Auth where
  | Bearer (ba : BearerAuth)
  | Basic (user : String) (password : Option String)
deriving DecidableEq

/-- The client state the authentication engine reads and writes: the
stored `(user, password)` credentials and the current auth slot
(`none` = anonymous).  The remaining `Client` fields of `src/v2/mod.rs`
(base URL, accepted types) play no role in the claims at hand. -/
structure Client where
  credentials : Option (String × String)
  auth : Option Auth
deriving DecidableEq

/-- Mirror of `WwwAuthenticateHeaderContentBearer` in `src/v2/auth.rs`. -/
structure WwwAuthenticateHeaderContentBearer where
  realm : String
  service : Option String
  scope : Option String
deriving DecidableEq

/-- Mirror of `WwwAuthenticateHeaderContent` in `src/v2/auth.rs`;
`Basic` carries the `realm` of `WwwAuthenticateHeaderContentBasic`. -/
inductive WwwAuthenticateHeaderContent where
  | Bearer (b : WwwAuthenticateHeaderContentBearer)
  | Basic (realm : String)
deriving DecidableEq

/-- Mirror of `WwwAuthenticateHeaderContentBearer::auth_ep` in
`src/v2/auth.rs`: the `?service=` part, the enumerate-fold over the
scopes, and the scope prefix chosen on emptiness of the service STRING. -/
def WwwAuthenticateHeaderContentBearer.auth_ep
    (bc : WwwAuthenticateHeaderContentBearer) (scopes : List String) : String :=
  let service : String :=
    match bc.service with
    | some sv => "?service=" ++ sv
    | none => ""
  let scope : String :=
    scopes.enum.foldl
      (fun acc p => acc ++ (if p.1 > 0 then "&" else "") ++ "scope=" ++ p.2) ""
  let scopePre : String :=
    if scopes.isEmpty then ""
    else if service = "" then "?"
    else "&"
  bc.realm ++ service ++ scopePre ++ scope

/-- Plain concatenation of a list of strings. -/
def joinAll : List String → String
  | [] => ""
  | s :: rest => s ++ joinAll rest

/-- The token-endpoint URL as the spec words it: the realm, followed by
`?service=<service>` when a service is present, followed by the scopes in
order, each rendered as `scope=<scope>`, the first prefixed with `?` if
the service is absent and `&` otherwise, subsequent ones joined by `&`;
no percent-encoding anywhere. -/
def auth_ep_spec (bc : WwwAuthenticateHeaderContentBearer) (scopes : List String) :
    String :=
  bc.realm
    ++ (match bc.service with
        | some sv => "?service=" ++ sv
        | none => "")
    ++ (match scopes with
        | [] => ""
        | s :: rest =>
          (if bc.service.isSome then "&" else "?") ++ "scope=" ++ s
            ++ joinAll (rest.map (fun x => "&scope=" ++ x)))

/-- Mirror of the token-masking block of
`BearerAuth::try_from_header_content` (`src/v2/auth.rs` lines 77-88):
`chars().enumerate()`, `next().unwrap()` takes `(0, first_char)`,
`last().unwrap()` takes the final indexed char of the REMAINING iterator
and adds one to its index.  `none` models a `.unwrap()` panic. -/
def maskToken (token : String) : Option (Char × Nat × Char) :=
  match token.data with
  | [] => none
  | c :: rest =>
    match rest.getLast? with
    | none => none
    | some l => some (c, rest.length + 1, l)

/-- Outcome of an operation that may also panic (Rust `Result` plus
unwinding). -/
inductive AuthOutcome (α : Type) where
  | ok (a : α)
  | err (e : Error)
  | panic
deriving DecidableEq

/-- Status and decoded JSON body of one token-endpoint response; `json`
is the outcome of `r.json::<BearerAuth>()`. -/
structure TokenResponse where
  status : Nat
  json : Except Error BearerAuth

/-- The network environment `authenticate` runs against.
`probeStatus`/`probeHeader` describe the response to the `GET /v2/`
probe; `tokenEndpoint` maps a request URL and the optional basic
credentials attached to it to the token-service response.
`parseChallenge` abstracts `WwwAuthenticateHeaderContent::from_www_authentication_header`
(a regex-and-serde pipeline none of the claims at hand concern);
transport-level I/O failures are not modelled. -/
structure AuthEnv where
  probeStatus : Nat
  probeHeader : Option String
  parseChallenge : String → Except Error WwwAuthenticateHeaderContent
  tokenEndpoint : String → Option (String × String) → TokenResponse

/-- Mirror of `Client::get_www_authentication_header` in
`src/v2/auth.rs`: the probe's `WWW-Authenticate` header value, or
`MissingAuthHeader`.  Note the response STATUS is never examined. -/
def get_www_authentication_header (env : AuthEnv) : Except Error String :=
  match env.probeHeader with
  | some h => .ok h
  | none => .error (.MissingAuthHeader "WWW-Authenticate")

/-- Mirror of `BearerAuth::try_from_header_content` in `src/v2/auth.rs`:
GET the synthesised token endpoint (attaching the stored credentials as
basic auth), require status 200, decode the JSON body, reject empty and
`"unauthenticated"` tokens, then run the token-masking block (which
panics on one-character tokens). -/
def BearerAuth.try_from_header_content (env : AuthEnv) (scopes : List String)
    (credentials : Option (String × String))
    (bc : WwwAuthenticateHeaderContentBearer) : AuthOutcome BearerAuth :=
  let resp := env.tokenEndpoint (bc.auth_ep scopes) credentials
  if resp.status ≠ 200 then .err (.UnexpectedHttpStatus resp.status)
  else
    match resp.json with
    | .error e => .err e
    | .ok ba =>
      if ba.token = "unauthenticated" ∨ ba.token = "" then
        .err (.InvalidAuthToken ba.token)
      else
        match maskToken ba.token with
        | none => .panic
        | some _ => .ok ba

/-- Mirror of `Client::authenticate` in `src/v2/auth.rs`: clear the auth
slot, probe, dispatch on the challenge scheme, and store the acquired
auth.  The returned pair is the call's outcome together with the client
state as left behind (on an error return, the slot still holds the `None`
assigned first). -/
def authenticate (env : AuthEnv) (scopes : List String) (client : Client) :
    AuthOutcome Unit × Client :=
  let c : Client := { client with auth := none }
  match get_www_authentication_header env with
  | .error (.MissingAuthHeader _) => (.ok (), c)
  | .error e => (.err e, c)
  | .ok h =>
    match env.parseChallenge h with
    | .error e => (.err e, c)
    | .ok (.Basic _) =>
      match c.credentials with
      | none => (.err .NoCredentials, c)
      | some (user, password) =>
        (.ok (), { c with auth := some (.Basic user (some password)) })
    | .ok (.Bearer bc) =>
      match BearerAuth.try_from_header_content env scopes c.credentials bc with
      | .ok ba => (.ok (), { c with auth := some (.Bearer ba) })
      | .err e => (.err e, c)
      | .panic => (.panic, c)

/-- Modelled from the spec: the legacy schema-1 signed manifest
(`src/v2/manifest/manifest_schema1.rs` is not among the sources at hand).
It carries a single `architecture` and the `fsLayers` blob digests, in
reverse order on the wire (top layer first). -/
structure ManifestSchema1Signed where
  architecture : String
  fsLayers : List String
deriving DecidableEq

/-- Modelled from the spec: schema-1 `get_layers` normalises the on-wire
top-first `fsLayers` order to base-image-first by reversing it. -/
def ManifestSchema1Signed.get_layers (m : ManifestSchema1Signed) : List String :=
  m.fsLayers.reverse

/-- Mirror of `ConfigBlob` in `src/v2/manifest/manifest_schema2.rs`. -/
structure ConfigBlob where
  architecture : String
deriving DecidableEq

/-- Mirror of `Config` in `src/v2/manifest/manifest_schema2.rs`. -/
structure Config where
  media_type : String
  size : Nat
  digest : String
deriving DecidableEq

/-- Mirror of `S2Layer` in `src/v2/manifest/manifest_schema2.rs`. -/
structure S2Layer where
  media_type : String
  size : Nat
  digest : String
  urls : Option (List String)
deriving DecidableEq

/-- Mirror of `ManifestSchema2Spec` in
`src/v2/manifest/manifest_schema2.rs`. -/
structure ManifestSchema2Spec where
  schema_version : Nat
  media_type : MediaTypes
  config : Config
  layers : List S2Layer
deriving DecidableEq

/-- Mirror of `ManifestSchema2` (spec + hydrated config blob). -/
structure ManifestSchema2 where
  manifest_spec : ManifestSchema2Spec
  config_blob : ConfigBlob
deriving DecidableEq

/-- Mirror of `ManifestSchema2::get_layers`: the `layers` digests, already
base-image-first. -/
def ManifestSchema2.get_layers (m : ManifestSchema2) : List String :=
  m.manifest_spec.layers.map (fun l => l.digest)

/-- Mirror of `ManifestSchema2::architecture`. -/
def ManifestSchema2.architecture (m : ManifestSchema2) : String :=
  m.config_blob.architecture

/-- Mirror of `Platform` in `src/v2/manifest/manifest_schema2.rs`. -/
structure Platform where
  architecture : String
  os : String
  os_version : Option String
  os_features : Option (List String)
  variant : Option String
  features : Option (List String)
deriving DecidableEq

/-- Mirror of `ManifestObj` in `src/v2/manifest/manifest_schema2.rs`. -/
structure ManifestObj where
  media_type : String
  size : Nat
  digest : String
  platform : Platform
deriving DecidableEq

/-- Mirror of `ManifestObj::architecture`. -/
def ManifestObj.architecture (mo : ManifestObj) : String :=
  mo.platform.architecture

/-- Mirror of `ManifestList` in `src/v2/manifest/manifest_schema2.rs`. -/
structure ManifestList where
  schema_version : Nat
  media_type : String
  manifests : List ManifestObj
deriving DecidableEq

/-- Mirror of `ManifestList::architectures`. -/
def ManifestList.architectures (ml : ManifestList) : List String :=
  ml.manifests.map (fun mo => mo.architecture)

/-- Mirror of `ManifestList::get_digests`: the digests of the per-platform
sub-manifests. -/
def ManifestList.get_digests (ml : ManifestList) : List String :=
  ml.manifests.map (fun mo => mo.digest)

/-- Mirror of the `Manifest` umbrella enum in `src/v2/manifest/mod.rs`. -/
inductive Manifest where
  | S1Signed (m : ManifestSchema1Signed)
  | S2 (m : ManifestSchema2)
  | ML (m : ManifestList)
deriving DecidableEq

/-- Mirror of `Manifest::architectures` in `src/v2/manifest/mod.rs`: one
element for S1/S2 (`iter::once`), one per entry for lists; always `Ok`. -/
def Manifest.architectures : Manifest → Except Error (List String)
  | .S1Signed m => .ok [m.architecture]
  | .S2 m => .ok [m.architecture]
  | .ML m => .ok m.architectures

/-- Variant name of a manifest, abbreviating Rust's
`format!("{:?}", self)` debug rendering. -/
def Manifest.variantName : Manifest → String
  | .S1Signed _ => "S1Signed"
  | .S2 _ => "S2"
  | .ML _ => "ML"

/-- Mirror of `Manifest::layers_digests` in `src/v2/manifest/mod.rs`: the
match on `(self, self.architectures(), architecture)`, arms in source
order; `head?` mirrors the `next()` on the architectures iterator.  The
payload of the (unreachable) `LayerDigestsUnsupported` arm abbreviates
Rust's `format!("{:?}", self)`. -/
def Manifest.layers_digests (m : Manifest) (architecture : Option String) :
    Except Error (List String) :=
  match m, m.architectures, architecture with
  | .S1Signed s, _, none => .ok s.get_layers
  | .S2 s, _, none => .ok s.get_layers
  | .S1Signed s, .ok archs, some a =>
    match archs.head? with
    | none => .error (.Manifest .NoArchitecture)
    | some sa =>
      if sa ≠ a then .error (.Manifest .ArchitectureMismatch)
      else .ok s.get_layers
  | .S2 s, .ok archs, some a =>
    match archs.head? with
    | none => .error (.Manifest .NoArchitecture)
    | some sa =>
      if sa ≠ a then .error (.Manifest .ArchitectureMismatch)
      else .ok s.get_layers
  | .ML l, _, _ => .ok l.get_digests
  | mm, _, _ => .error (.Manifest (.LayerDigestsUnsupported mm.variantName))

def sampleS1 : ManifestSchema1Signed :=
  { architecture := "amd64", fsLayers := ["sha256:top", "sha256:base"] }

def sampleS2 : ManifestSchema2 :=
  { manifest_spec :=
      { schema_version := 2
        media_type := .ManifestV2S2
        config := { media_type := "c", size := 1, digest := "sha256:cfg" }
        layers := [] }
    config_blob := { architecture := "amd64" } }

def sampleML : ManifestList :=
  { schema_version := 2
    media_type := "l"
    manifests :=
      [{ media_type := "m", size := 1, digest := "sha256:sub"
         platform :=
           { architecture := "arm64", os := "linux", os_version := none
             os_features := none, variant := none, features := none } }] }

def sampleChallenge : WwwAuthenticateHeaderContentBearer :=
  { realm := "https://auth.example/token"
    service := some "example.com"
    scope := none }

/-- A network environment whose token endpoint answers 200 with the given
token and whose probe returns a bearer challenge. -/
def tokenEnvOf (t : String) : AuthEnv :=
  { probeStatus := 401
    probeHeader := some "Bearer challenge"
    parseChallenge := fun _ => .ok (.Bearer sampleChallenge)
    tokenEndpoint := fun _ _ =>
      { status := 200
        json := .ok { token := t, expires_in := none, issued_at := none,
                      refresh_token := none } } }

/-- A hash family used in concrete instances: every digest is 32 zero
bytes, whose hex rendering is 64 zero characters. -/
def zeroHash : Hash := fun _ _ => List.replicate 32 0

def zeros64 : String := ⟨List.replicate 64 '0'⟩

def sampleDigestStr : String := "sha256:" ++ zeros64

example : ContentDigest.try_new sampleDigestStr = .ok ⟨.sha256, zeros64, []⟩ := by
  decide

theorem str_append_data (s t : String) : (s ++ t).data = s.data ++ t.data := by
  cases s; cases t; rfl

theorem str_ext {s t : String} (h : s.data = t.data) : s = t := by
  cases s; cases t; exact congrArg String.mk h

theorem str_append_assoc (a b c : String) : a ++ b ++ c = a ++ (b ++ c) := by
  apply str_ext; simp [str_append_data]

theorem str_append_empty (a : String) : a ++ "" = a := by
  apply str_ext; simp [str_append_data]

theorem str_empty_append (a : String) : "" ++ a = a := by
  apply str_ext; simp [str_append_data]

theorem service_string_ne_empty (sv : String) : ¬ ("?service=" ++ sv) = "" := by
  intro h
  have h2 := congrArg String.data h
  simp [str_append_data] at h2

theorem update_algo (cd : ContentDigest) (c : List Nat) :
    (cd.update c).algo = cd.algo := rfl

theorem update_expectedHex (cd : ContentDigest) (c : List Nat) :
    (cd.update c).expectedHex = cd.expectedHex := rfl

theorem update_data (cd : ContentDigest) (c : List Nat) :
    (cd.update c).data = cd.data ++ c := rfl

example : mimeParse "application/vnd.oci.image.index.v1+json" =
    some { type_ := "application", subtype := "vnd.oci.image.index.v1+json",
           suffix := some "json" } := by decide

example : fromMime (toMime .ApplicationJson) = .ok .ApplicationJson := by decide

example : fromMime (toMime .OciV1ManifestList) =
    .error (.UnknownMimeType (toMime .OciV1ManifestList)) := by decide

example : fromMime (toMime .ManifestV2S2) =
    .error (.UnknownMimeType (toMime .ManifestV2S2)) := by decide

example : fromMime (toMime .ImageLayerTgz) =
    .error (.UnknownMimeType (toMime .ImageLayerTgz)) := by decide

/-- C2 (counterexample): the round-trip fails as stated — rendering the
canonical MIME of the OCI index variant and parsing it back does not
return the variant but an UnknownMimeType error, because from_mime has no
arm for the OCI subtypes. -/
theorem mediatypes_roundtrip_claim_counterexample :
    fromMime (toMime .OciV1ManifestList) ≠ .ok .OciV1ManifestList ∧
    fromMime (toMime .OciV1ManifestList) =
      .error (.UnknownMimeType (toMime .OciV1ManifestList)) := by
  decide

/-- C2 (amended): for every variant the canonical MIME string parses as a
MIME value, but from_mime(to_mime(v)) = v holds exactly for
ApplicationJson; every other variant — the three OCI variants included —
fails with UnknownMimeType, since from_mime compares the full subtype
(which in the mime crate includes the +suffix) against suffix-less names,
has no OCI arms, and the suffix-less image-layer type falls outside the
suffixed match arm. -/
theorem mediatypes_roundtrip_only_application_json :
    ∀ v : MediaTypes,
      mimeParse (mediaTypeCanonical v) = some (toMime v) ∧
      (fromMime (toMime v) = .ok v ↔ v = .ApplicationJson) ∧
      (v ≠ .ApplicationJson →
        fromMime (toMime v) = .error (.UnknownMimeType (toMime v))) := by
  intro v
  cases v <;> exact ⟨by decide, by decide, by decide⟩

theorem mediatypes_roundtrip_only_application_json_witness :
    fromMime (toMime .OciV1Manifest) =
      .error (.UnknownMimeType (toMime .OciV1Manifest)) :=
  (mediatypes_roundtrip_only_application_json .OciV1Manifest).2.2 (by decide)

/-- C9: for S1-signed and S2 manifests queried with an explicit
architecture, layers_digests returns the layer digests exactly when the
manifest's single declared architecture equals the argument, fails with
ArchitectureMismatch when it differs, and would fail with NoArchitecture
were the declared-architectures iterator empty; for manifest lists it
returns the per-entry sub-manifest digests for every architecture
argument. -/
theorem layers_digests_architecture_filter :
    ∀ (s1 : ManifestSchema1Signed) (s2 : ManifestSchema2) (ml : ManifestList)
      (a : String) (oa : Option String),
      ((Manifest.S1Signed s1).layers_digests (some a) = .ok s1.get_layers ↔
        s1.architecture = a) ∧
      (s1.architecture ≠ a →
        (Manifest.S1Signed s1).layers_digests (some a) =
          .error (.Manifest .ArchitectureMismatch)) ∧
      ((Manifest.S2 s2).layers_digests (some a) = .ok s2.get_layers ↔
        s2.architecture = a) ∧
      (s2.architecture ≠ a →
        (Manifest.S2 s2).layers_digests (some a) =
          .error (.Manifest .ArchitectureMismatch)) ∧
      ((Manifest.S1Signed s1).architectures = .ok [] →
        (Manifest.S1Signed s1).layers_digests (some a) =
          .error (.Manifest .NoArchitecture)) ∧
      ((Manifest.S2 s2).architectures = .ok [] →
        (Manifest.S2 s2).layers_digests (some a) =
          .error (.Manifest .NoArchitecture)) ∧
      ((Manifest.ML ml).layers_digests oa = .ok ml.get_digests) := by
  intro s1 s2 ml a oa
  refine ⟨?_, ?_, ?_, ?_, ?_, ?_, ?_⟩
  · by_cases h : s1.architecture = a <;>
      simp [Manifest.layers_digests, Manifest.architectures, h]
  · intro h
    simp [Manifest.layers_digests, Manifest.architectures, h]
  · by_cases h : s2.architecture = a <;>
      simp [Manifest.layers_digests, Manifest.architectures, h]
  · intro h
    simp [Manifest.layers_digests, Manifest.architectures, h]
  · intro h
    simp [Manifest.architectures] at h
  · intro h
    simp [Manifest.architectures] at h
  · cases oa <;> rfl

theorem layers_digests_architecture_filter_witness :
    (Manifest.S1Signed sampleS1).layers_digests (some "arm64") =
      .error (.Manifest .ArchitectureMismatch) ∧
    (Manifest.S2 sampleS2).layers_digests (some "amd64") = .ok [] ∧
    (Manifest.ML sampleML).layers_digests (some "zzz") = .ok ["sha256:sub"] := by
  have h := layers_digests_architecture_filter sampleS1 sampleS2 sampleML "arm64" none
  have h2 := layers_digests_architecture_filter sampleS1 sampleS2 sampleML "amd64" (some "zzz")
  exact ⟨h.2.1 (by decide), (h2.2.2.1).mpr (by decide), h2.2.2.2.2.2.2⟩

/-- C10: a token of length exactly one passes the emptiness and
"unauthenticated" checks but makes the token-masking block panic (the
unwrap of None from chars.last() after the single character was consumed
by next()); a successful bearer acquisition is only possible for tokens
of length at least two. -/
theorem bearer_token_length_one_panics :
    ∀ (env : AuthEnv) (scopes : List String) (credentials : Option (String × String))
      (bc : WwwAuthenticateHeaderContentBearer) (ba : BearerAuth),
      (env.tokenEndpoint (bc.auth_ep scopes) credentials).status = 200 →
      (env.tokenEndpoint (bc.auth_ep scopes) credentials).json = .ok ba →
      ((ba.token.length = 1 →
          BearerAuth.try_from_header_content env scopes credentials bc = .panic) ∧
        (∀ ba2 : BearerAuth,
          BearerAuth.try_from_header_content env scopes credentials bc = .ok ba2 →
          2 ≤ ba2.token.length)) := by
  intro env scopes credentials bc ba hstatus hjson
  have hres : BearerAuth.try_from_header_content env scopes credentials bc =
      (if ba.token = "unauthenticated" ∨ ba.token = "" then
        AuthOutcome.err (.InvalidAuthToken ba.token)
      else
        match maskToken ba.token with
        | none => AuthOutcome.panic
        | some _ => AuthOutcome.ok ba) := by
    simp only [BearerAuth.try_from_header_content, hstatus, hjson]
    simp
  constructor
  · intro hlen
    have hcond : ¬ (ba.token = "unauthenticated" ∨ ba.token = "") := by
      rintro (h | h) <;> rw [h] at hlen <;> exact absurd hlen (by decide)
    have hmask : maskToken ba.token = none := by
      have hd : ba.token.data.length = 1 := hlen
      obtain ⟨c, hc⟩ := List.length_eq_one.mp hd
      simp [maskToken, hc]
    rw [hres, if_neg hcond, hmask]
  · intro ba2 hok
    rw [hres] at hok
    by_cases hcond : ba.token = "unauthenticated" ∨ ba.token = ""
    · rw [if_pos hcond] at hok; cases hok
    · rw [if_neg hcond] at hok
      rcases hmask : maskToken ba.token with _ | p
      · rw [hmask] at hok; cases hok
      · rw [hmask] at hok
        have hba : ba = ba2 := by cases hok; rfl
        subst hba
        rcases hdata : ba.token.data with _ | ⟨c, rest⟩
        · simp [maskToken, hdata] at hmask
        · rcases hrest : rest with _ | ⟨c2, rest2⟩
          · rw [hrest] at hdata; simp [maskToken, hdata] at hmask
          · have hlen2 : ba.token.length = ba.token.data.length := rfl
            rw [hlen2, hdata, hrest]
            simp

theorem bearer_token_length_one_panics_witness :
    BearerAuth.try_from_header_content (tokenEnvOf "x") [] none sampleChallenge =
      .panic :=
  (bearer_token_length_one_panics (tokenEnvOf "x") [] none sampleChallenge
    { token := "x", expires_in := none, issued_at := none, refresh_token := none }
    rfl rfl).1 rfl

/-- C3 (counterexample): the claim's second half fails on the code — a
probe answering 500 WITHOUT a WWW-Authenticate header makes authenticate
succeed anonymously instead of failing with UnexpectedHttpStatus, because
get_www_authentication_header never examines the response status. -/
theorem authenticate_probe_500_counterexample :
    authenticate
        { probeStatus := 500
          probeHeader := none
          parseChallenge := fun _ => .error .InvalidChallenge
          tokenEndpoint := fun _ _ => { status := 500, json := .error .InvalidChallenge } }
        [] { credentials := none, auth := none } =
      (.ok (), { credentials := none, auth := none }) ∧
    authenticate
        { probeStatus := 500
          probeHeader := none
          parseChallenge := fun _ => .error .InvalidChallenge
          tokenEndpoint := fun _ _ => { status := 500, json := .error .InvalidChallenge } }
        [] { credentials := none, auth := none } ≠
      (.err (.UnexpectedHttpStatus 500), { credentials := none, auth := none }) := by
  constructor
  · rfl
  · intro h
    cases h

/-- C3 (amended): a probe response carrying no WWW-Authenticate header
results in anonymous success (the auth slot stays None) REGARDLESS of the
probe status — 200 and 500 alike — because the probe status is never
inspected; UnexpectedHttpStatus can only arise later, from the bearer
token endpoint. -/
theorem authenticate_no_header_anonymous :
    ∀ (env : AuthEnv) (scopes : List String) (client : Client),
      env.probeHeader = none →
      authenticate env scopes client = (.ok (), { client with auth := none }) := by
  intro env scopes client h
  simp [authenticate, get_www_authentication_header, h]

theorem authenticate_no_header_anonymous_witness :
    authenticate
        { probeStatus := 200
          probeHeader := none
          parseChallenge := fun _ => .error .InvalidChallenge
          tokenEndpoint := fun _ _ => { status := 200, json := .error .InvalidChallenge } }
        [] { credentials := none, auth := none } =
      (.ok (), { credentials := none, auth := none }) :=
  authenticate_no_header_anonymous _ [] _ rfl

/-- C7: a token endpoint answering 200 with a token equal to the empty
string or the literal "unauthenticated" makes authenticate fail with
InvalidAuthToken, and the client's auth slot is left at None — no Bearer
auth is stored. -/
theorem authenticate_invalid_token_rejected :
    ∀ (env : AuthEnv) (scopes : List String) (client : Client) (hv : String)
      (bc : WwwAuthenticateHeaderContentBearer) (ba : BearerAuth),
      env.probeHeader = some hv →
      env.parseChallenge hv = .ok (.Bearer bc) →
      (env.tokenEndpoint (bc.auth_ep scopes) client.credentials).status = 200 →
      (env.tokenEndpoint (bc.auth_ep scopes) client.credentials).json = .ok ba →
      (ba.token = "" ∨ ba.token = "unauthenticated") →
      authenticate env scopes client =
        (.err (.InvalidAuthToken ba.token), { client with auth := none }) := by
  intro env scopes client hv bc ba hprobe hparse hstatus hjson htok
  have hcred : ({ client with auth := none } : Client).credentials =
      client.credentials := rfl
  have htry : BearerAuth.try_from_header_content env scopes client.credentials bc =
      .err (.InvalidAuthToken ba.token) := by
    have hcond : ba.token = "unauthenticated" ∨ ba.token = "" := htok.symm
    simp only [BearerAuth.try_from_header_content, hstatus, hjson]
    simp [if_pos hcond]
  simp [authenticate, get_www_authentication_header, hprobe, hparse, hcred, htry]

theorem authenticate_invalid_token_rejected_witness :
    authenticate (tokenEnvOf "unauthenticated") [] { credentials := none, auth := none } =
      (.err (.InvalidAuthToken "unauthenticated"),
        { credentials := none, auth := none }) :=
  authenticate_invalid_token_rejected (tokenEnvOf "unauthenticated") []
    { credentials := none, auth := none } "Bearer challenge" sampleChallenge
    { token := "unauthenticated", expires_in := none, issued_at := none,
      refresh_token := none }
    rfl rfl rfl rfl (Or.inr rfl)

/-- C8: authenticate clears the auth slot first, so whenever it returns an
error — challenge parse failure, missing credentials on a basic
challenge, or any failing step of bearer acquisition — the client state
it leaves behind has auth = None; no partially-initialised auth is
observable. -/
theorem authenticate_error_leaves_auth_none :
    ∀ (env : AuthEnv) (scopes : List String) (client : Client) (e : Error)
      (c2 : Client),
      authenticate env scopes client = (.err e, c2) → c2.auth = none := by
  intro env scopes client e c2 h
  cases hp : env.probeHeader with
  | none =>
    simp [authenticate, get_www_authentication_header, hp] at h
  | some hv =>
    cases hc : env.parseChallenge hv with
    | error e2 =>
      simp only [authenticate, get_www_authentication_header, hp, hc] at h
      injection h with h1 h2
      subst h2
      rfl
    | ok content =>
      cases content with
      | Basic realm =>
        cases hcr : client.credentials with
        | none =>
          simp only [authenticate, get_www_authentication_header, hp, hc, hcr] at h
          injection h with h1 h2
          subst h2
          rfl
        | some up =>
          obtain ⟨u, p⟩ := up
          simp only [authenticate, get_www_authentication_header, hp, hc, hcr] at h
          injection h with h1 h2
          cases h1
      | Bearer bc =>
        cases ht : BearerAuth.try_from_header_content env scopes client.credentials bc with
        | ok ba =>
          simp only [authenticate, get_www_authentication_header, hp, hc, ht] at h
          injection h with h1 h2
          cases h1
        | err e3 =>
          simp only [authenticate, get_www_authentication_header, hp, hc, ht] at h
          injection h with h1 h2
          subst h2
          rfl
        | panic =>
          simp only [authenticate, get_www_authentication_header, hp, hc, ht] at h
          injection h with h1 h2
          cases h1

theorem authenticate_error_leaves_auth_none_witness :
    ({ credentials := some ("user", "pass"), auth := none } : Client).auth = none :=
  authenticate_error_leaves_auth_none
    { probeStatus := 401
      probeHeader := some "Garbage"
      parseChallenge := fun _ => .error .InvalidChallenge
      tokenEndpoint := fun _ _ => { status := 401, json := .error .InvalidChallenge } }
    []
    { credentials := some ("user", "pass"), auth := some (.Basic "stale" none) }
    .InvalidChallenge
    { credentials := some ("user", "pass"), auth := none }
    rfl

theorem scope_fold_from (l : List String) :
    ∀ (k : Nat) (acc : String),
      (List.enumFrom (k + 1) l).foldl
          (fun acc p => acc ++ (if p.1 > 0 then "&" else "") ++ "scope=" ++ p.2) acc
        = acc ++ joinAll (l.map fun x => "&scope=" ++ x) := by
  induction l with
  | nil =>
    intro k acc
    simp [List.enumFrom, joinAll, str_append_empty]
  | cons x xs ih =>
    intro k acc
    simp only [List.enumFrom, List.foldl, List.map, joinAll]
    rw [ih (k + 1)]
    rw [if_pos (Nat.succ_pos k)]
    have hlit : ("&" : String) ++ "scope=" = "&scope=" := by decide
    rw [str_append_assoc acc "&" "scope=", hlit]
    simp [str_append_assoc]

/-- C5: for every bearer challenge and scope list, the synthesised token
endpoint URL is the realm, then the service query when present, then the
scopes in order rendered scope=x, the first prefixed by a question mark
when the service is absent and an ampersand otherwise, subsequent ones
joined by ampersands, with no percent-encoding of any part. -/
theorem auth_ep_matches_spec :
    ∀ (bc : WwwAuthenticateHeaderContentBearer) (scopes : List String),
      bc.auth_ep scopes = auth_ep_spec bc scopes := by
  intro bc scopes
  cases hs : bc.service with
  | none =>
    cases scopes with
    | nil =>
      simp [WwwAuthenticateHeaderContentBearer.auth_ep, auth_ep_spec, hs,
        List.enum, List.enumFrom, str_append_empty]
    | cons s rest =>
      simp only [WwwAuthenticateHeaderContentBearer.auth_ep, auth_ep_spec, hs,
        List.enum, List.enumFrom, List.foldl, List.isEmpty]
      rw [scope_fold_from rest 0]
      simp [Option.isSome, str_append_assoc, str_append_empty, str_empty_append]
      have h1 : ("?" : String) ++ "scope=" = "?scope=" := by decide
      rw [← str_append_assoc "?" "scope=", h1]
  | some sv =>
    have hne := service_string_ne_empty sv
    cases scopes with
    | nil =>
      simp [WwwAuthenticateHeaderContentBearer.auth_ep, auth_ep_spec, hs,
        List.enum, List.enumFrom, str_append_empty]
    | cons s rest =>
      simp only [WwwAuthenticateHeaderContentBearer.auth_ep, auth_ep_spec, hs,
        List.enum, List.enumFrom, List.foldl, List.isEmpty]
      rw [scope_fold_from rest 0]
      simp [Option.isSome, hne, str_append_assoc, str_append_empty, str_empty_append]
      have h2 : ("&" : String) ++ "scope=" = "&scope=" := by decide
      rw [← str_append_assoc "&" "scope=", h2]

example :
    WwwAuthenticateHeaderContentBearer.auth_ep
      { realm := "https://auth.example/token", service := none, scope := none }
      ["a:pull", "b:push"]
      = "https://auth.example/token?scope=a:pull&scope=b:push" := by decide

example :
    WwwAuthenticateHeaderContentBearer.auth_ep
      { realm := "https://auth.example/token", service := some "example.com",
        scope := none }
      ["repository:x:pull"]
      = "https://auth.example/token?service=example.com&scope=repository:x:pull" := by
  decide

theorem try_new_shape (d : String) :
    (∃ cd : ContentDigest, ContentDigest.try_new d = .ok cd ∧ cd.data = []) ∨
    ContentDigest.try_new d = .error (.DigestParse d) := by
  unfold ContentDigest.try_new
  split
  · split
    · split
      · exact Or.inl ⟨_, rfl, rfl⟩
      · exact Or.inr rfl
    · split
      · exact Or.inl ⟨_, rfl, rfl⟩
      · exact Or.inr rfl
    · exact Or.inr rfl
  · exact Or.inr rfl

/-- C6 (counterexample): a 304 response — non-2xx, neither 4xx nor 5xx —
does NOT fail with UnexpectedHttpStatus: the blob fetch proceeds as a
success and hands the (digest-verified) bytes to the caller, because
reqwest's error_for_status only fails for 4xx/5xx and the
UnexpectedHttpStatus arm is unreachable. -/
theorem blob_status_304_counterexample :
    get_blob zeroHash 304 [7] sampleDigestStr = .ok [7] := by decide

/-- C6 (amended): for both blob GET variants a 4xx response fails with
Client(status) and a 5xx response fails with Server(status), with no
bytes returned; but any OTHER status — non-2xx such as 3xx included — is
treated as success and proceeds to the digest-verified body, and
get_blob_response can never return UnexpectedHttpStatus (that arm is
dead code behind error_for_status). -/
theorem blob_status_dispatch :
    ∀ (H : Hash) (status : Nat) (body : List Nat) (chunks : List (List Nat))
      (digest : String),
      (400 ≤ status ∧ status ≤ 499 →
        get_blob H status body digest = .error (.Client status) ∧
        get_blob_stream status digest chunks = .error (.Client status)) ∧
      (500 ≤ status ∧ status ≤ 599 →
        get_blob H status body digest = .error (.Server status) ∧
        get_blob_stream status digest chunks = .error (.Server status)) ∧
      (¬ (400 ≤ status ∧ status ≤ 599) →
        get_blob_response status digest = ContentDigest.try_new digest) ∧
      (∀ s : Nat, get_blob_response status digest ≠ .error (.UnexpectedHttpStatus s)) := by
  intro H status body chunks digest
  refine ⟨?_, ?_, ?_, ?_⟩
  · intro h
    have hc : isClientError status = true := by
      simp only [isClientError, decide_eq_true_eq]; exact h
    have he : errorForStatus status = true := by
      simp [errorForStatus, hc]
    constructor <;>
      simp [get_blob, get_blob_stream, get_blob_response, he, hc]
  · intro h
    have hc : isClientError status = false := by
      simp only [isClientError, decide_eq_false_iff_not]; omega
    have hsrv : isServerError status = true := by
      simp only [isServerError, decide_eq_true_eq]; exact h
    have he : errorForStatus status = true := by
      simp [errorForStatus, hsrv]
    constructor <;>
      simp [get_blob, get_blob_stream, get_blob_response, he, hc, hsrv]
  · intro h
    have hc : isClientError status = false := by
      simp only [isClientError, decide_eq_false_iff_not]; omega
    have hsrv : isServerError status = false := by
      simp only [isServerError, decide_eq_false_iff_not]; omega
    have he : errorForStatus status = false := by
      simp [errorForStatus, hc, hsrv]
    simp [get_blob_response, he]
  · intro s h
    by_cases hc : isClientError status = true
    · have he : errorForStatus status = true := by simp [errorForStatus, hc]
      simp [get_blob_response, he, hc] at h
    · by_cases hsrv : isServerError status = true
      · have he : errorForStatus status = true := by simp [errorForStatus, hsrv]
        simp [get_blob_response, he, hc, hsrv] at h
      · have he : errorForStatus status = false := by
          simp [errorForStatus]
          exact ⟨by simpa using hc, by simpa using hsrv⟩
        rw [get_blob_response, if_neg (by simp [he])] at h
        rcases try_new_shape digest with ⟨cd, hok, -⟩ | herr
        · rw [hok] at h; cases h
        · rw [herr] at h; cases h

theorem blob_status_dispatch_witness :
    get_blob zeroHash 404 [7] sampleDigestStr = .error (.Client 404) ∧
    get_blob zeroHash 500 [7] sampleDigestStr = .error (.Server 500) ∧
    get_blob_response 304 sampleDigestStr = ContentDigest.try_new sampleDigestStr := by
  refine ⟨?_, ?_, ?_⟩
  · exact ((blob_status_dispatch zeroHash 404 [7] [] sampleDigestStr).1 (by omega)).1
  · exact ((blob_status_dispatch zeroHash 500 [7] [] sampleDigestStr).2.1 (by omega)).1
  · exact (blob_status_dispatch zeroHash 304 [7] [] sampleDigestStr).2.2.1 (by omega)

/-- C1: on a successful blob GET with a well-formed declared digest, the
materialised body is returned exactly when its hash (computed over the
whole body) matches the declared hex (case-insensitively); on mismatch
the fetch fails with DigestMismatch carrying the declared and computed
digests, and no bytes are returned. -/
theorem get_blob_digest_verification :
    ∀ (H : Hash) (body : List Nat) (d : String) (cd : ContentDigest),
      ContentDigest.try_new d = .ok cd →
      ((get_blob H 200 body d = .ok body ↔
          hexEncode (H cd.algo body) = lowerStr cd.expectedHex) ∧
        (hexEncode (H cd.algo body) ≠ lowerStr cd.expectedHex →
          get_blob H 200 body d =
            .error (.DigestMismatch cd.expectedHex (hexEncode (H cd.algo body))))) := by
  intro H body d cd htry
  have hdata : cd.data = [] := by
    rcases try_new_shape d with ⟨cd2, hok, hnil⟩ | herr
    · rw [htry] at hok
      cases hok
      exact hnil
    · rw [htry] at herr; cases herr
  have h200 : get_blob_response 200 d = .ok cd := by
    have he : errorForStatus 200 = false := by decide
    simp [get_blob_response, he, htry]
  have hblob : get_blob H 200 body d = blob_bytes H cd body := by
    simp [get_blob, h200]
  have hhex : (cd.update body).computedHex H = hexEncode (H cd.algo body) := by
    simp [ContentDigest.computedHex, ContentDigest.update, hdata]
  constructor
  · by_cases hv : hexEncode (H cd.algo body) = lowerStr cd.expectedHex
    · simp [hblob, blob_bytes, ContentDigest.verify, update_expectedHex, hhex, hv]
    · simp [hblob, blob_bytes, ContentDigest.verify, update_expectedHex, hhex, hv]
  · intro hv
    simp [hblob, blob_bytes, ContentDigest.verify, update_expectedHex, hhex, hv]

theorem get_blob_digest_verification_witness :
    (get_blob zeroHash 200 [1, 2] sampleDigestStr = .ok [1, 2] ↔
      hexEncode (zeroHash Algo.sha256 [1, 2]) = lowerStr zeros64) ∧
    (hexEncode (zeroHash Algo.sha256 [1, 2]) ≠ lowerStr zeros64 →
      get_blob zeroHash 200 [1, 2] sampleDigestStr =
        .error (.DigestMismatch zeros64 (hexEncode (zeroHash Algo.sha256 [1, 2])))) :=
  get_blob_digest_verification zeroHash [1, 2] sampleDigestStr
    ⟨.sha256, zeros64, []⟩ (by decide)

example :
    get_blob (fun _ _ => List.replicate 32 1) 200 [1, 2] sampleDigestStr =
      .error (.DigestMismatch zeros64
        (hexEncode (List.replicate 32 1))) := by decide

theorem poll_trace_out (H : Hash) :
    ∀ (chunks : List (List Nat)) (cd : ContentDigest),
      (BlobStream.poll_trace H (chunks.length + 1) ⟨chunks, some cd⟩).1 =
        chunks.map .ok ++
          (if hexEncode (H cd.algo (cd.data ++ chunks.flatten)) = lowerStr cd.expectedHex
           then []
           else [.error (.DigestMismatch cd.expectedHex
             (hexEncode (H cd.algo (cd.data ++ chunks.flatten))))]) := by
  intro chunks
  induction chunks with
  | nil =>
    intro cd
    by_cases hv : hexEncode (H cd.algo cd.data) = lowerStr cd.expectedHex <;>
      simp [BlobStream.poll_trace, BlobStream.poll_next, ContentDigest.verify,
        ContentDigest.computedHex, hv]
  | cons c rest ih =>
    intro cd
    have hstep :
        (BlobStream.poll_trace H ((c :: rest).length + 1) ⟨c :: rest, some cd⟩).1 =
          .ok c :: (BlobStream.poll_trace H (rest.length + 1)
            ⟨rest, some (cd.update c)⟩).1 := rfl
    rw [hstep, ih (cd.update c)]
    simp [update_algo, update_expectedHex, update_data, List.append_assoc]

theorem poll_trace_early (H : Hash) :
    ∀ (chunks : List (List Nat)) (n : Nat) (cd : ContentDigest), n ≤ chunks.length →
      (BlobStream.poll_trace H n ⟨chunks, some cd⟩).1 = (chunks.take n).map .ok ∧
      (BlobStream.poll_trace H n ⟨chunks, some cd⟩).2 =
        ⟨chunks.drop n, some ⟨cd.algo, cd.expectedHex, cd.data ++ (chunks.take n).flatten⟩⟩ := by
  intro chunks
  induction chunks with
  | nil =>
    intro n cd hn
    have h0 : n = 0 := Nat.le_zero.mp hn
    subst h0
    simp [BlobStream.poll_trace]
  | cons c rest ih =>
    intro n cd hn
    cases n with
    | zero => simp [BlobStream.poll_trace]
    | succ m =>
      have hm : m ≤ rest.length := by simpa using hn
      have hstep1 :
          (BlobStream.poll_trace H (m + 1) ⟨c :: rest, some cd⟩).1 =
            .ok c :: (BlobStream.poll_trace H m ⟨rest, some (cd.update c)⟩).1 := rfl
      have hstep2 :
          (BlobStream.poll_trace H (m + 1) ⟨c :: rest, some cd⟩).2 =
            (BlobStream.poll_trace H m ⟨rest, some (cd.update c)⟩).2 := rfl
      obtain ⟨ih1, ih2⟩ := ih m (cd.update c) hm
      constructor
      · rw [hstep1, ih1]; simp
      · rw [hstep2, ih2]
        simp [update_algo, update_expectedHex, update_data, List.append_assoc]

/-- C4: for the verifying blob stream, every underlying chunk is folded
into the running digest and yielded unchanged in order; after the
underlying stream is exhausted the stream emits a terminal DigestMismatch
error exactly when the digest accumulated over all chunks fails
verification, and ends cleanly otherwise; and a consumer that stops
polling before exhaustion (at most length-many polls) observes only the
chunks, never a verification error — at that point the digest slot still
holds the digest over the consumed prefix. -/
theorem blob_stream_digest_trace :
    ∀ (H : Hash) (cd : ContentDigest) (chunks : List (List Nat)),
      (BlobStream.poll_trace H (chunks.length + 1) (BlobStream.new chunks cd)).1 =
        chunks.map .ok ++
          (if hexEncode (H cd.algo (cd.data ++ chunks.flatten)) = lowerStr cd.expectedHex
           then []
           else [.error (.DigestMismatch cd.expectedHex
             (hexEncode (H cd.algo (cd.data ++ chunks.flatten))))]) ∧
      (∀ n, n ≤ chunks.length →
        (BlobStream.poll_trace H n (BlobStream.new chunks cd)).1 =
          (chunks.take n).map .ok ∧
        (BlobStream.poll_trace H n (BlobStream.new chunks cd)).2 =
          ⟨chunks.drop n, some ⟨cd.algo, cd.expectedHex, cd.data ++ (chunks.take n).flatten⟩⟩) := by
  intro H cd chunks
  exact ⟨poll_trace_out H chunks cd, fun n hn => poll_trace_early H chunks n cd hn⟩

theorem blob_stream_digest_trace_witness :
    (BlobStream.poll_trace zeroHash 3
        (BlobStream.new [[1], [2, 3]] ⟨.sha256, zeros64, []⟩)).1 =
      [.ok [1], .ok [2, 3]] ∧
    (BlobStream.poll_trace zeroHash 1
        (BlobStream.new [[1], [2, 3]] ⟨.sha256, zeros64, []⟩)).1 = [.ok [1]] := by
  have h := blob_stream_digest_trace zeroHash ⟨.sha256, zeros64, []⟩ [[1], [2, 3]]
  exact ⟨h.1.trans (by decide), ((h.2 1 (by decide)).1).trans (by decide)⟩

example :
    (BlobStream.poll_trace (fun _ _ => List.replicate 32 1) 3
        (BlobStream.new [[1], [2, 3]] ⟨.sha256, zeros64, []⟩)).1 =
      [.ok [1], .ok [2, 3],
        .error (.DigestMismatch zeros64 (hexEncode (List.replicate 32 1)))] := by
  decide

end DkRegistry
